import Mathlib

/-!
Verification development for the mergekit architecture engine
(`src/mergekit/architecture.py`).

The Python code is embedded shallowly:

* Pydantic models become Lean structures holding the same fields; the
  `model_dump(mode="json", exclude_unset=True)` / `model_validate` round
  trip used by `JsonArchitectureInfo._substitute` is the identity at the
  value level, so substitution is modelled field-wise over the three
  `str`-typed fields of `WeightInfo` (the only fields the
  `isinstance(obj_dict[key], str)` guard lets through).
* Fallible Python code becomes `Except PyErr`; each `PyErr` constructor
  records which Python exception the modelled statement raises.
* `string.Template.substitute` with the custom
  `idpattern = (?a:[_a-z][_a-z0-9]*([+-]1)?)` is modelled by an explicit
  scanner over the character list, including the `$$` escape, the
  `${braced}` form (with the regex's backtracking over the optional
  `[+-]1` suffix), bare `$name` placeholders, `KeyError` on a missing
  table entry and `ValueError` on an invalid `$` sequence.
* The procedural-space machinery of the source file is not needed by any
  statement below and is omitted; the weight-descriptor paths are
  embedded in full.
-/

/-- The Python exceptions the embedded code can raise. -/
inductive PyErr : Type
  | attributeError (attr : String)
  | typeError (msg : String)
  | keyError (key : String)
  | valueError (msg : String)
  | runtimeError (msg : String)
deriving DecidableEq, Repr

/-- A value stored in a `PretrainedConfig` attribute: the embedding keeps
the two dynamic types the claims exercise, integers and strings. -/
inductive AttrVal : Type
  | int (n : Int)
  | str (s : String)
deriving DecidableEq, Repr

/-- The slice of `transformers.PretrainedConfig` the source reads:
`config.architectures`, `config.model_type`, and named attributes looked
up with `getattr` (layer count, `num_local_experts`). -/
structure PretrainedConfig : Type where
  architectures : List String
  model_type : String
  attrs : List (String × AttrVal)
deriving DecidableEq, Repr

/-- `getattr(config, key)`: `AttributeError` when the attribute is absent. -/
def PretrainedConfig.getAttr (config : PretrainedConfig) (key : String) :
    Except PyErr AttrVal :=
  match config.attrs.find? (fun p => p.1 == key) with
  | some p => Except.ok p.2
  | none => Except.error (PyErr.attributeError key)

/-- `WeightInfo`: information about an individual weight tensor
(architecture.py lines 28-54), with the source's defaults. -/
structure WeightInfo : Type where
  name : String
  is_embed : Bool := false
  is_lm_head : Bool := false
  input_space : Option String := none
  output_space : Option String := none
  optional : Bool := false
  aliases : Option (List String) := none
deriving DecidableEq, Repr

/-- `[_a-z]`: first character of the `TemplateWithArithmetic` idpattern. -/
def isIdStart (c : Char) : Bool :=
  c == '_' || (decide ('a' ≤ c) && decide (c ≤ 'z'))

/-- `[_a-z0-9]`: continuation characters of the idpattern. -/
def isIdCont (c : Char) : Bool :=
  isIdStart c || (decide ('0' ≤ c) && decide (c ≤ '9'))

/-- Greedy match of `[_a-z][_a-z0-9]*([+-]1)?` for a bare `$name`
placeholder: `c` is the already-seen first character, `cs` the rest.
Returns the matched identifier and the unconsumed characters. -/
def parseNamed (c : Char) (cs : List Char) : List Char × List Char :=
  match cs.dropWhile isIdCont with
  | '+' :: '1' :: r => (c :: cs.takeWhile isIdCont ++ ['+', '1'], r)
  | '-' :: '1' :: r => (c :: cs.takeWhile isIdCont ++ ['-', '1'], r)
  | rest => (c :: cs.takeWhile isIdCont, rest)

/-- Match of `{idpattern}` for a `${braced}` placeholder (input: the
characters after `${`).  The regex engine backtracks over the optional
`[+-]1` suffix when no `}` follows it, hence the ordered cases. -/
def parseBraced : List Char → Option (List Char × List Char)
  | [] => none
  | c :: cs =>
    if isIdStart c then
      match cs.dropWhile isIdCont with
      | '+' :: '1' :: '}' :: r => some (c :: cs.takeWhile isIdCont ++ ['+', '1'], r)
      | '-' :: '1' :: '}' :: r => some (c :: cs.takeWhile isIdCont ++ ['-', '1'], r)
      | '}' :: r => some (c :: cs.takeWhile isIdCont, r)
      | _ => none
    else none

/-- The substitution table: Python dict from placeholder name to integer
value (insertion order preserved, keys distinct). -/
def lookupSubst (subs : List (String × Int)) (k : String) : Option Int :=
  (subs.find? (fun p => p.1 == k)).map (fun p => p.2)

/-- One scanning pass of `TemplateWithArithmetic(template).substitute`,
structurally recursive on a fuel argument so that the definition
computes by kernel reduction: every step consumes at least one
character, so fuel equal to the input length (as `substChars` supplies)
always suffices, and the zero-fuel branch on a non-empty input is
unreachable.  `$$` escapes, `${braced}` and `$named` placeholders are
replaced by `str(subs[name])`; a missing table entry raises `KeyError`,
an invalid `$` sequence raises `ValueError`. -/
def substGo (subs : List (String × Int)) : Nat → List Char → Except PyErr (List Char)
  | _, [] => Except.ok []
  | 0, _ :: _ => Except.error (PyErr.valueError "fuel below input length")
  | fuel + 1, c :: rest =>
    if c = '$' then
      match rest with
      | [] => Except.error (PyErr.valueError "Invalid placeholder in string")
      | '$' :: r => (substGo subs fuel r).map (fun t => '$' :: t)
      | '{' :: r =>
        match parseBraced r with
        | some (k, r') =>
          match lookupSubst subs (String.mk k) with
          | some v => (substGo subs fuel r').map (fun t => (toString v).data ++ t)
          | none => Except.error (PyErr.keyError (String.mk k))
        | none => Except.error (PyErr.valueError "Invalid placeholder in string")
      | c2 :: r =>
        if isIdStart c2 then
          match parseNamed c2 r with
          | (k, r') =>
            match lookupSubst subs (String.mk k) with
            | some v => (substGo subs fuel r').map (fun t => (toString v).data ++ t)
            | none => Except.error (PyErr.keyError (String.mk k))
        else Except.error (PyErr.valueError "Invalid placeholder in string")
    else
      (substGo subs fuel rest).map (fun t => c :: t)

/-- `TemplateWithArithmetic(template).substitute(subs)` over the
template's character list. -/
def substChars (subs : List (String × Int)) (cs : List Char) :
    Except PyErr (List Char) :=
  substGo subs cs.length cs

/-- One field of the dumped descriptor, as `_substitute` treats it: the
template is applied only when the Python substring test `"{" in value`
succeeds; otherwise the field is returned untouched. -/
def substituteField (subs : List (String × Int)) (s : String) :
    Except PyErr String :=
  if s.data.contains '{' then (substChars subs s.data).map String.mk
  else Except.ok s

/-- Substitution over an `Optional[str]` field: `None` is not a `str`, so
the `isinstance` guard skips it. -/
def substituteOptField (subs : List (String × Int)) :
    Option String → Except PyErr (Option String)
  | none => Except.ok none
  | some s => (substituteField subs s).map some

/-- `JsonArchitectureInfo._substitute` applied to a `WeightInfo`, given
the already-built substitution table: the dumped dict is walked in field
order and only `str`-valued entries (`name`, `input_space`,
`output_space`) are templated; `bool` fields and the `aliases` list fall
outside the `isinstance(obj_dict[key], str)` guard. -/
def substituteWeightInfo (subs : List (String × Int)) (wi : WeightInfo) :
    Except PyErr WeightInfo := do
  let name ← substituteField subs wi.name
  let inSpace ← substituteOptField subs wi.input_space
  let outSpace ← substituteOptField subs wi.output_space
  return { wi with name := name, input_space := inSpace, output_space := outSpace }

/-- The substitution table of `JsonArchitectureInfo._substitute` (lines
215-227): `num_layers`, `num_layers+1`, `num_layers-1` always, plus the
three `layer_index` entries when a layer index is supplied. -/
def buildSubstitutions (num_layers : Int) (layer_idx : Option Int) :
    List (String × Int) :=
  match layer_idx with
  | none =>
    [("num_layers", num_layers), ("num_layers+1", num_layers + 1),
     ("num_layers-1", num_layers - 1)]
  | some i =>
    [("num_layers", num_layers), ("num_layers+1", num_layers + 1),
     ("num_layers-1", num_layers - 1),
     ("layer_index", i), ("layer_index+1", i + 1), ("layer_index-1", i - 1)]

/-- `JSONLayerTemplates` (procedural-space templates omitted: unused by
every statement below). -/
structure JSONLayerTemplates : Type where
  weights : List WeightInfo
deriving DecidableEq, Repr

/-- `JSONArchitectureDefinition` (again without the space templates). -/
structure JSONArchitectureDefinition : Type where
  expected_model_type : String
  architectures : List String
  pre_weights : List WeightInfo
  layer_templates : JSONLayerTemplates
  post_weights : List WeightInfo
  num_layers_config_key : Option String := none
deriving DecidableEq, Repr

/-- `JsonArchitectureInfo`: a pydantic model whose only declared field is
`definition`.  In particular it declares no `overrides` field, although
its `pre_weights` / `post_weights` methods read `self.overrides`. -/
structure JsonArchitectureInfo : Type where
  definition : JSONArchitectureDefinition
deriving DecidableEq, Repr

/-- `JsonArchitectureInfo.num_layers_config_key` (lines 296-297): returns
`self.definition.num_layers_config_key` as it is — `None` included.  It
does not fall back to the base-class default `"num_hidden_layers"`. -/
def JsonArchitectureInfo.num_layers_config_key (a : JsonArchitectureInfo) :
    Option String :=
  a.definition.num_layers_config_key

/-- `ArchitectureInfo.num_layers` as run by a `JsonArchitectureInfo`:
`getattr(config, self.num_layers_config_key())`.  A `None` key makes
`getattr` raise `TypeError: attribute name must be string`; a missing
attribute raises `AttributeError`.  The raw attribute value is returned
unchecked, exactly as in the source. -/
def JsonArchitectureInfo.num_layers (a : JsonArchitectureInfo)
    (config : PretrainedConfig) : Except PyErr AttrVal :=
  match a.num_layers_config_key with
  | none => Except.error (PyErr.typeError "attribute name must be string")
  | some k => config.getAttr k

/-- `int(num_layers)` uses: `num_layers + 1` while building the
substitution table and `range(num_layers)` in `all_weights` both raise
`TypeError` when the attribute held a string instead of an integer. -/
def toIntAttr : AttrVal → Except PyErr Int
  | AttrVal.int n => Except.ok n
  | AttrVal.str _ => Except.error (PyErr.typeError "num_layers must be an int")

/-- `JsonArchitectureInfo._substitute` (lines 208-235): reads the layer
count from the configuration, builds the substitution table and templates
the descriptor. -/
def JsonArchitectureInfo.substituteItem (a : JsonArchitectureInfo)
    (config : PretrainedConfig) (layer_idx : Option Int) (item : WeightInfo) :
    Except PyErr WeightInfo := do
  let raw ← a.num_layers config
  let n ← toIntAttr raw
  substituteWeightInfo (buildSubstitutions n layer_idx) item

/-- `JsonArchitectureInfo.pre_weights` (lines 237-246): substitutes every
definition descriptor, then evaluates `if self.overrides:` —
`JsonArchitectureInfo` declares no `overrides` field, so the attribute
lookup raises `AttributeError` before the filter can run. -/
def JsonArchitectureInfo.pre_weights (a : JsonArchitectureInfo)
    (config : PretrainedConfig) : Except PyErr (List WeightInfo) := do
  let _weights ← a.definition.pre_weights.mapM (a.substituteItem config none)
  Except.error (PyErr.attributeError "overrides")

/-- `JsonArchitectureInfo.post_weights` (lines 256-267): same shape, and
the same `self.overrides` attribute lookup failure. -/
def JsonArchitectureInfo.post_weights (a : JsonArchitectureInfo)
    (config : PretrainedConfig) : Except PyErr (List WeightInfo) := do
  let _weights ← a.definition.post_weights.mapM (a.substituteItem config none)
  Except.error (PyErr.attributeError "overrides")

/-- `JsonArchitectureInfo.layer_weights` (lines 248-254): the layer
template substituted at the given index. -/
def JsonArchitectureInfo.layer_weights (a : JsonArchitectureInfo)
    (index : Int) (config : PretrainedConfig) : Except PyErr (List WeightInfo) :=
  a.definition.layer_templates.weights.mapM (a.substituteItem config (some index))

/-- `ArchitectureInfo.all_weights` (lines 105-112) as run by a
`JsonArchitectureInfo`: layer count first, then pre-weights, then one
layer-template instantiation per index in `range(num_layers)` (ascending),
then post-weights.  `range` of a non-integer raises `TypeError` at the
loop header, after `pre_weights` has already run. -/
def JsonArchitectureInfo.all_weights (a : JsonArchitectureInfo)
    (config : PretrainedConfig) : Except PyErr (List WeightInfo) := do
  let raw ← a.num_layers config
  let pre ← a.pre_weights config
  let n ← toIntAttr raw
  let layers ← (List.range n.toNat).mapM
    (fun layer_idx => a.layer_weights (Int.ofNat layer_idx) config)
  let post ← a.post_weights config
  return pre ++ layers.flatten ++ post

/-- `MixtralTensorNames` (lines 300-338): the hardcoded
mixture-of-experts plugin, holding the expert count read from the
configuration at construction. -/
structure MixtralTensorNames : Type where
  num_local_experts : Int
deriving DecidableEq, Repr

/-- `MixtralTensorNames.ARCHITECTURE_NAME`. -/
def mixtralArchitectureName : String := "MixtralForCausalLM"

/-- `MixtralTensorNames.from_config`: reads `config.num_local_experts`;
pydantic validation requires an integer (the lax numeric-string coercion
is not modelled — no statement below exercises it). -/
def MixtralTensorNames.from_config (config : PretrainedConfig) :
    Except PyErr MixtralTensorNames := do
  match ← config.getAttr "num_local_experts" with
  | AttrVal.int n => return { num_local_experts := n }
  | AttrVal.str _ =>
    Except.error (PyErr.valueError "validation error for MixtralTensorNames")

/-- `MixtralTensorNames.layer_weights` (lines 317-332): for each expert
index, the `w1`, `w2`, `w3` sub-tensors of that expert, then the single
routing-gate tensor; every name is prefixed with `model.layers.{index}`. -/
def MixtralTensorNames.layer_weights (m : MixtralTensorNames) (index : Int) :
    List WeightInfo :=
  let pfx := "model.layers." ++ toString index
  let tensor_names :=
    (List.range m.num_local_experts.toNat).foldl
      (fun acc expert_idx =>
        acc ++ ["w1", "w2", "w3"].map (fun param =>
          pfx ++ ".block_sparse_moe.experts." ++ toString expert_idx ++ "."
            ++ param ++ ".weight"))
      []
  let tensor_names := tensor_names ++ [pfx ++ ".block_sparse_moe.gate.weight"]
  tensor_names.map (fun n => { name := n })

/-- Python dict lookup returning `None`-style misses (`key in d` / `d.get`). -/
def dictLookup {α : Type} (d : List (String × α)) (k : String) : Option α :=
  (d.find? (fun p => p.1 == k)).map (fun p => p.2)

/-- Python `d[key]`: `KeyError` on a miss. -/
def dictGet {α : Type} (d : List (String × α)) (k : String) :
    Except PyErr α :=
  match dictLookup d k with
  | some v => Except.ok v
  | none => Except.error (PyErr.keyError k)

/-- Insert-or-replace for an association list, preserving the dict's
insertion order. -/
def setAssoc {α : Type} (m : List (String × α)) (k : String) (v : α) :
    List (String × α) :=
  if (dictLookup m k).isSome
  then m.map (fun p => if p.1 == k then (k, v) else p)
  else m ++ [(k, v)]

/-- The raw result of `ConfiguredArchitectureInfo.pre_weights` /
`post_weights`: with no override bound the method returns substituted
`WeightInfo` descriptors, but with a bound override it returns
`self.overrides[...]`, which is the override's `List[str]` of names —
despite the method's `List[WeightInfo]` annotation. -/
inductive PrePostResult : Type
  | weights (ws : List WeightInfo)
  | names (ns : List String)
deriving DecidableEq, Repr

/-- `ConfiguredArchitectureInfo` (lines 147-183).  The source field
`info : ArchitectureInfo` is specialised here to the declarative
implementation: the Mixtral variant's pre/post weights delegate to the
bundled `mistral.json` definition, a data resource that is not part of
the sources, and no statement below configures a Mixtral instance. -/
structure ConfiguredArchitectureInfo : Type where
  info : JsonArchitectureInfo
  config : PretrainedConfig
  overrides : Option (List (String × List String))
deriving DecidableEq, Repr

/-- `if not self.overrides:` — falsy for `None` and for an empty dict. -/
def ConfiguredArchitectureInfo.noOverrides (c : ConfiguredArchitectureInfo) :
    Bool :=
  match c.overrides with
  | none => true
  | some d => d.isEmpty

/-- `ConfiguredArchitectureInfo.pre_weights` (lines 157-161): without an
override, delegate to the architecture; with one, return
`self.overrides["pre_weights"]` — the raw name list. -/
def ConfiguredArchitectureInfo.pre_weights (c : ConfiguredArchitectureInfo) :
    Except PyErr PrePostResult :=
  if c.noOverrides then
    (c.info.pre_weights c.config).map PrePostResult.weights
  else
    match c.overrides with
    | some d => (dictGet d "pre_weights").map PrePostResult.names
    | none => (c.info.pre_weights c.config).map PrePostResult.weights

/-- `ConfiguredArchitectureInfo.post_weights` (lines 163-167). -/
def ConfiguredArchitectureInfo.post_weights (c : ConfiguredArchitectureInfo) :
    Except PyErr PrePostResult :=
  if c.noOverrides then
    (c.info.post_weights c.config).map PrePostResult.weights
  else
    match c.overrides with
    | some d => (dictGet d "post_weights").map PrePostResult.names
    | none => (c.info.post_weights c.config).map PrePostResult.weights

/-- `_load_all_architectures`' second result: the `name_to_arch` table,
appending each loaded definition under every architecture name it
declares, in load order. -/
def appendAssoc (m : List (String × List JsonArchitectureInfo)) (k : String)
    (v : JsonArchitectureInfo) : List (String × List JsonArchitectureInfo) :=
  match m with
  | [] => [(k, [v])]
  | (k', vs) :: rest =>
    if k' == k then (k', vs ++ [v]) :: rest else (k', vs) :: appendAssoc rest k v

/-- `NAME_TO_ARCH` built from a list of loaded definitions (lines
348-361); the bundled JSON resources themselves are data, so the loaded
list is a parameter. -/
def nameToArch (archs : List JsonArchitectureInfo) :
    List (String × List JsonArchitectureInfo) :=
  archs.foldl
    (fun m arch_info =>
      arch_info.definition.architectures.foldl
        (fun m name => appendAssoc m name arch_info) m)
    []

/-- The closed set of architecture implementations `_load_architecture_info`
can return. -/
inductive ResolvedArch : Type
  | json (a : JsonArchitectureInfo)
  | mixtral (m : MixtralTensorNames)
deriving DecidableEq, Repr

/-- `_load_architecture_info` (lines 368-390): exactly one declared
architecture name; the Mixtral special case; candidate lookup by name;
a single candidate wins outright; among several, the first whose
`expected_model_type` equals the configuration's `model_type`; otherwise
the unsupported-model-type `RuntimeError`. -/
def loadArchitectureInfo (archs : List JsonArchitectureInfo)
    (config : PretrainedConfig) : Except PyErr ResolvedArch :=
  match config.architectures with
  | [arch_name] =>
    if arch_name == mixtralArchitectureName then
      (MixtralTensorNames.from_config config).map ResolvedArch.mixtral
    else
      match dictLookup (nameToArch archs) arch_name with
      | none =>
        Except.error (PyErr.runtimeError ("Unsupported architecture " ++ arch_name))
      | some [c] => Except.ok (ResolvedArch.json c)
      | some candidates =>
        match candidates.find?
            (fun c => c.definition.expected_model_type == config.model_type) with
        | some c => Except.ok (ResolvedArch.json c)
        | none =>
          Except.error (PyErr.runtimeError
            ("Unsupported model_type " ++ config.model_type
              ++ " for architecture " ++ arch_name))
  | _ => Except.error (PyErr.runtimeError "More than one architecture in config?")

/-- `MappingInfo` (lines 126-139). -/
structure MappingInfo : Type where
  start_architectures : List String
  destination_architectures : List String
  pre_weights_mapping : List (String × List String)
  post_weights_mapping : List (String × List String)
deriving DecidableEq, Repr

/-- `mapping["pre_weights"]` in `_load_all_mappings` subscripts the
pydantic `MappingInfo` model itself; `BaseModel` defines no
`__getitem__`, so every such access raises `TypeError` (and the model's
fields are named `pre_weights_mapping` / `post_weights_mapping` anyway). -/
def MappingInfo.getItem (_m : MappingInfo) (_k : String) :
    Except PyErr (List (String × List String)) :=
  Except.error (PyErr.typeError "MappingInfo object is not subscriptable")

/-- One `(start, destination)` table entry. -/
structure MappingEntry : Type where
  pre_weights : List String
  post_weights : List String
deriving DecidableEq, Repr

/-- `_load_all_mappings` (lines 399-418) over an already-loaded list of
mapping resources: for every `(start, destination)` pair not yet present,
store `{"pre_weights": mapping["pre_weights"]["destination"],
"post_weights": mapping["post_weights"]["destination"]}` — the
subscripting of `mapping` raising `TypeError` before any entry is built. -/
def loadAllMappings (ms : List MappingInfo) :
    Except PyErr (List (String × List (String × MappingEntry))) :=
  ms.foldlM
    (fun mappings m =>
      m.start_architectures.foldlM
        (fun mappings start =>
          let mappings :=
            if (dictLookup mappings start).isSome then mappings
            else mappings ++ [(start, [])]
          m.destination_architectures.foldlM
            (fun mappings dest =>
              match dictLookup mappings start with
              | none => pure mappings
              | some entries =>
                if (dictLookup entries dest).isSome then pure mappings
                else do
                  let preTable ← m.getItem "pre_weights"
                  let pre_weights ← dictGet preTable "destination"
                  let postTable ← m.getItem "post_weights"
                  let post_weights ← dictGet postTable "destination"
                  pure (setAssoc mappings start
                    (setAssoc entries dest
                      { pre_weights := pre_weights, post_weights := post_weights })))
            mappings)
        mappings)
    []

/-! ### Concrete fixtures used by the claim theorems and witnesses -/

/-- Pre-weight 1 of the test definition. -/
def wEmbed : WeightInfo := { name := "model.embed_tokens.weight", is_embed := true }

/-- Pre-weight 2 of the test definition; a non-default field beyond the
name, so that descriptor identity is observable. -/
def wNormA : WeightInfo := { name := "model.norm_a.weight", optional := true }

/-- Pre-weight 3 of the test definition. -/
def wNormB : WeightInfo := { name := "model.norm_b.weight" }

/-- The layer template of the test definition. -/
def wLayer : WeightInfo := { name := "model.layers.${layer_index}.self_attn.q_proj.weight" }

/-- The post-weight of the test definition. -/
def wHead : WeightInfo := { name := "lm_head.weight", is_lm_head := true }

/-- A test architecture definition: 3 pre-weights, 1 layer template,
1 post-weight, layer-count key `num_hidden_layers` given explicitly. -/
def defnLlama : JSONArchitectureDefinition :=
  { expected_model_type := "llama"
    architectures := ["LlamaForCausalLM"]
    pre_weights := [wEmbed, wNormA, wNormB]
    layer_templates := { weights := [wLayer] }
    post_weights := [wHead]
    num_layers_config_key := some "num_hidden_layers" }

/-- The test architecture. -/
def archLlama : JsonArchitectureInfo := { definition := defnLlama }

/-- The same definition with no `num_layers_config_key` override. -/
def defnNoKey : JSONArchitectureDefinition :=
  { expected_model_type := "llama"
    architectures := ["LlamaForCausalLM"]
    pre_weights := [wEmbed, wNormA, wNormB]
    layer_templates := { weights := [wLayer] }
    post_weights := [wHead]
    num_layers_config_key := none }

/-- Architecture whose definition leaves the layer-count key unset. -/
def archNoKey : JsonArchitectureInfo := { definition := defnNoKey }

/-- A well-formed configuration for the test architecture: 2 layers. -/
def cfgLlama : PretrainedConfig :=
  { architectures := ["LlamaForCausalLM"]
    model_type := "llama"
    attrs := [("num_hidden_layers", AttrVal.int 2)] }

/-- A configuration with no layer-count attribute at all. -/
def cfgNoLayers : PretrainedConfig :=
  { architectures := ["LlamaForCausalLM"]
    model_type := "llama"
    attrs := [] }

/-- A configured architecture binding an override that keeps exactly one
of the three pre-weight names. -/
def cfgArchOverride : ConfiguredArchitectureInfo :=
  { info := archLlama
    config := cfgLlama
    overrides := some [("pre_weights", ["model.norm_a.weight"]),
                       ("post_weights", ["lm_head.weight"])] }

/-- Definition "X"/model type "a" for the resolver disambiguation test. -/
def defnXa : JSONArchitectureDefinition :=
  { expected_model_type := "a"
    architectures := ["X"]
    pre_weights := [wEmbed]
    layer_templates := { weights := [wLayer] }
    post_weights := [wHead]
    num_layers_config_key := some "num_hidden_layers" }

/-- Definition "X"/model type "b". -/
def defnXb : JSONArchitectureDefinition :=
  { expected_model_type := "b"
    architectures := ["X"]
    pre_weights := [wNormA]
    layer_templates := { weights := [wLayer] }
    post_weights := [wHead]
    num_layers_config_key := some "num_hidden_layers" }

/-- Loaded definition list serving architecture name "X" twice. -/
def archsXX : List JsonArchitectureInfo :=
  [{ definition := defnXa }, { definition := defnXb }]

/-- Configuration declaring name "X" and model type "a". -/
def cfgXa : PretrainedConfig :=
  { architectures := ["X"], model_type := "a"
    attrs := [("num_hidden_layers", AttrVal.int 2)] }

/-- Configuration declaring name "X" and unknown model type "c". -/
def cfgXc : PretrainedConfig :=
  { architectures := ["X"], model_type := "c"
    attrs := [("num_hidden_layers", AttrVal.int 2)] }

/-- Configuration declaring no architecture name at all. -/
def cfgNoArch : PretrainedConfig :=
  { architectures := [], model_type := "m", attrs := [] }

/-- A loaded mapping resource with one start and one destination
architecture and both destination-side name lists populated. -/
def mappingLM : MappingInfo :=
  { start_architectures := ["LlamaForCausalLM"]
    destination_architectures := ["MistralForCausalLM"]
    pre_weights_mapping := [("destination", ["model.embed_tokens.weight"])]
    post_weights_mapping := [("destination", ["lm_head.weight"])] }

/-! ### Helper lemmas -/

theorem substGo_no_dollar (subs : List (String × Int)) :
    ∀ (fuel : Nat) (cs : List Char), '$' ∉ cs → cs.length ≤ fuel →
      substGo subs fuel cs = Except.ok cs := by
  intro fuel
  induction fuel with
  | zero =>
    intro cs h hl
    cases cs with
    | nil => rfl
    | cons c rest => simp at hl
  | succ k ih =>
    intro cs h hl
    cases cs with
    | nil => rfl
    | cons c rest =>
      have hc : ¬(c = '$') := by
        intro hEq
        subst hEq
        exact h (List.mem_cons_self _ _)
      have hr : '$' ∉ rest := fun hm => h (List.mem_cons_of_mem c hm)
      have hl' : rest.length ≤ k := by
        simp only [List.length_cons] at hl
        omega
      simp [substGo, hc, ih rest hr hl', Except.map]

theorem substChars_no_dollar (subs : List (String × Int)) (cs : List Char)
    (h : '$' ∉ cs) : substChars subs cs = Except.ok cs :=
  substGo_no_dollar subs cs.length cs h (Nat.le_refl _)

theorem substituteField_no_dollar (subs : List (String × Int)) (s : String)
    (h : '$' ∉ s.data) :
    substituteField subs s = Except.ok s := by
  unfold substituteField
  split
  · rw [substChars_no_dollar subs s.data h]
    rfl
  · rfl

theorem substituteOptField_no_dollar (subs : List (String × Int)) (o : Option String)
    (h : ∀ s, o = some s → '$' ∉ s.data) :
    substituteOptField subs o = Except.ok o := by
  cases o with
  | none => rfl
  | some s =>
    simp only [substituteOptField]
    rw [substituteField_no_dollar subs s (h s rfl)]
    rfl

theorem pre_weights_never_ok (a : JsonArchitectureInfo) (config : PretrainedConfig)
    (ws : List WeightInfo) : a.pre_weights config ≠ Except.ok ws := by
  unfold JsonArchitectureInfo.pre_weights
  cases h : a.definition.pre_weights.mapM (a.substituteItem config none) with
  | error e => intro hEq; exact Except.noConfusion hEq
  | ok l => intro hEq; exact Except.noConfusion hEq

theorem find?_eq_some_of_mem_unique {α : Type} (p : α → Bool) (l : List α) (c : α)
    (hc : c ∈ l) (hp : p c = true)
    (huniq : ∀ c' ∈ l, p c' = true → c' = c) :
    l.find? p = some c := by
  induction l with
  | nil => cases hc
  | cons a l ih =>
    by_cases ha : p a = true
    · have hac : a = c := huniq a (List.mem_cons_self a l) ha
      subst hac
      simp [List.find?_cons_of_pos _ ha]
    · have ha' : p a = false := by
        cases hpa : p a
        · rfl
        · exact absurd hpa ha
      rcases List.mem_cons.mp hc with rfl | hc'
      · exact absurd hp ha
      · rw [List.find?_cons_of_neg _ (by simp [ha'])]
        exact ih hc' (fun c' h' hp' => huniq c' (List.mem_cons_of_mem a h') hp')

theorem foldl_append_length {α β : Type} (f : α → List β) (l : List α) (init : List β) :
    (l.foldl (fun acc x => acc ++ f x) init).length
      = init.length + (l.map (fun x => (f x).length)).sum := by
  induction l generalizing init with
  | nil => simp
  | cons a l ih =>
    simp only [List.foldl_cons, ih, List.length_append, List.map_cons, List.sum_cons]
    omega

theorem map_foldl_append {α β γ : Type} (h : β → γ) (g : α → List β) (l : List α) :
    ∀ init : List β,
      (l.foldl (fun acc x => acc ++ g x) init).map h
        = l.foldl (fun acc x => acc ++ (g x).map h) (init.map h) := by
  induction l with
  | nil => intro init; simp
  | cons a l ih =>
    intro init
    simp only [List.foldl_cons, ih, List.map_append]

theorem sum_map_three (n : Nat) :
    ((List.range n).map (fun _ => (3 : Nat))).sum = 3 * n := by
  induction n with
  | zero => simp
  | succ k ih =>
    rw [List.range_succ]
    simp [ih]
    omega

/-! ### Claim theorems -/

/-- Claim C1 (code bug shown at a concrete input): full weight
enumeration for a JSON-defined architecture with P = 3 pre-weight
templates, L = 1 layer-weight template, Q = 1 post-weight template and
N = 2 layers is claimed to return 3 + 2·1 + 1 = 6 descriptors in
pre → layers(ascending) → post order; instead `all_weights` raises
`AttributeError`, because `JsonArchitectureInfo.pre_weights` evaluates
`self.overrides` and the class declares no such field. -/
theorem claim_C1 :
    archLlama.all_weights cfgLlama
      = Except.error (PyErr.attributeError "overrides") := rfl

/-- Claim C2 (code bug shown at a concrete input): with a bound override
listing exactly 1 of the 3 pre-weight names,
`ConfiguredArchitectureInfo.pre_weights` is claimed to return the single
matching `WeightInfo` descriptor (identity preserved); instead it returns
`self.overrides["pre_weights"]` — the raw name-string list — and likewise
for `post_weights`. -/
theorem claim_C2 :
    cfgArchOverride.pre_weights
        = Except.ok (PrePostResult.names ["model.norm_a.weight"])
  ∧ cfgArchOverride.post_weights
        = Except.ok (PrePostResult.names ["lm_head.weight"]) :=
  ⟨rfl, rfl⟩

/-- Claim C4: the Mixtral plugin's per-layer weights are, for each expert
index in ascending order, the three fixed `w1`/`w2`/`w3` sub-tensors of
that expert (parameterized by layer index and expert index), followed by
the single routing-gate descriptor — 3·E + 1 descriptors in total
(so E = 8 yields 25). -/
theorem claim_C4 (m : MixtralTensorNames) (index : Int) :
    (m.layer_weights index).length = 3 * m.num_local_experts.toNat + 1
  ∧ m.layer_weights index =
      ((List.range m.num_local_experts.toNat).foldl
        (fun acc expert_idx =>
          acc ++ ["w1", "w2", "w3"].map (fun param =>
            ({ name := "model.layers." ++ toString index
                ++ ".block_sparse_moe.experts." ++ toString expert_idx ++ "."
                ++ param ++ ".weight" } : WeightInfo)))
        [])
      ++ [{ name := "model.layers." ++ toString index
              ++ ".block_sparse_moe.gate.weight" }] := by
  constructor
  · simp only [MixtralTensorNames.layer_weights, List.length_map,
      List.length_append, List.length_cons, List.length_nil]
    rw [foldl_append_length]
    simp [sum_map_three]
    omega
  · simp only [MixtralTensorNames.layer_weights, List.map_append,
      map_foldl_append, List.map_map, List.map_cons, List.map_nil]

/-- Claim C5 (code bug shown at a concrete input): when a definition
specifies a layer-count key it is used (second conjunct), but when the
definition specifies none, `JsonArchitectureInfo.num_layers_config_key`
returns `None` without falling back to the conventional
`"num_hidden_layers"` default of the base class, so the layer-count read
raises `TypeError` even though the configuration has the conventional
attribute (first conjunct). -/
theorem claim_C5 :
    archNoKey.num_layers cfgLlama
        = Except.error (PyErr.typeError "attribute name must be string")
  ∧ archLlama.num_layers cfgLlama = Except.ok (AttrVal.int 2) :=
  ⟨rfl, rfl⟩

/-- Claim C6 (code bug shown at a concrete input): loading a mapping
resource with one (start, destination) pair is claimed to yield a table
entry holding the destination-side pre/post name lists; instead
`_load_all_mappings` raises `TypeError`, because
`mapping["pre_weights"]` subscripts the pydantic `MappingInfo` model
(whose fields are `pre_weights_mapping`/`post_weights_mapping` anyway).
With no mapping resources the table loads empty (second conjunct). -/
theorem claim_C6 :
    loadAllMappings [mappingLM]
        = Except.error (PyErr.typeError "MappingInfo object is not subscriptable")
  ∧ loadAllMappings [] = Except.ok [] :=
  ⟨rfl, rfl⟩

/-- Claim C7: for layer count `N` and valid layer index `i`, the
substitution table built by `_substitute` always supplies `num_layers`,
`num_layers+1`, `num_layers-1`, and for layer-scoped substitution
additionally `layer_index`, `layer_index+1`, `layer_index-1`; templating
a field through it maps `${layer_index+1}` to `i + 1`,
`${layer_index-1}` to `i - 1` and `${num_layers-1}` to `N - 1`. -/
theorem claim_C7 (N i : Int) (h0 : 0 ≤ i) (hN : i < N) :
    lookupSubst (buildSubstitutions N (some i)) "layer_index+1" = some (i + 1)
  ∧ lookupSubst (buildSubstitutions N (some i)) "layer_index-1" = some (i - 1)
  ∧ lookupSubst (buildSubstitutions N (some i)) "num_layers-1" = some (N - 1)
  ∧ lookupSubst (buildSubstitutions N (some i)) "num_layers" = some N
  ∧ lookupSubst (buildSubstitutions N (some i)) "num_layers+1" = some (N + 1)
  ∧ lookupSubst (buildSubstitutions N (some i)) "layer_index" = some i
  ∧ lookupSubst (buildSubstitutions N none) "num_layers" = some N
  ∧ lookupSubst (buildSubstitutions N none) "num_layers+1" = some (N + 1)
  ∧ lookupSubst (buildSubstitutions N none) "num_layers-1" = some (N - 1)
  ∧ substituteField (buildSubstitutions N (some i)) "${layer_index+1}"
      = Except.ok (toString (i + 1))
  ∧ substituteField (buildSubstitutions N (some i)) "${layer_index-1}"
      = Except.ok (toString (i - 1))
  ∧ substituteField (buildSubstitutions N (some i)) "${num_layers-1}"
      = Except.ok (toString (N - 1)) := by
  refine ⟨rfl, rfl, rfl, rfl, rfl, rfl, rfl, rfl, rfl, ?_, ?_, ?_⟩
  · have h : substituteField (buildSubstitutions N (some i)) "${layer_index+1}"
        = Except.ok (String.mk ((toString (i + 1)).data ++ [])) := rfl
    rw [h, List.append_nil]
  · have h : substituteField (buildSubstitutions N (some i)) "${layer_index-1}"
        = Except.ok (String.mk ((toString (i - 1)).data ++ [])) := rfl
    rw [h, List.append_nil]
  · have h : substituteField (buildSubstitutions N (some i)) "${num_layers-1}"
        = Except.ok (String.mk ((toString (N - 1)).data ++ [])) := rfl
    rw [h, List.append_nil]

/-- Witness for claim C7 at `N = 5`, `i = 2`. -/
theorem claim_C7_witness :
    lookupSubst (buildSubstitutions 5 (some 2)) "layer_index+1" = some 3
  ∧ substituteField (buildSubstitutions 5 (some 2)) "${layer_index+1}"
      = Except.ok "3"
  ∧ substituteField (buildSubstitutions 5 (some 2)) "${num_layers-1}"
      = Except.ok "4" := by
  have h := claim_C7 5 2 (by decide) (by decide)
  exact ⟨h.1, h.2.2.2.2.2.2.2.2.2.1, h.2.2.2.2.2.2.2.2.2.2.2⟩

/-- Claim C8: substituting a placeholder-free descriptor (no
placeholder-introducing `$` in any of its string fields) under any
substitution table returns the descriptor unchanged: placeholder-free
fields and never-explicitly-set fields are left untouched. -/
theorem claim_C8 (subs : List (String × Int)) (wi : WeightInfo)
    (hname : '$' ∉ wi.name.data)
    (hin : ∀ s, wi.input_space = some s → '$' ∉ s.data)
    (hout : ∀ s, wi.output_space = some s → '$' ∉ s.data) :
    substituteWeightInfo subs wi = Except.ok wi := by
  unfold substituteWeightInfo
  rw [substituteField_no_dollar subs wi.name hname,
    substituteOptField_no_dollar subs wi.input_space hin,
    substituteOptField_no_dollar subs wi.output_space hout]
  rfl

/-- Witness for claim C8 at a concrete placeholder-free descriptor. -/
theorem claim_C8_witness :
    substituteWeightInfo (buildSubstitutions 5 (some 2)) wNormA
      = Except.ok wNormA :=
  claim_C8 (buildSubstitutions 5 (some 2)) wNormA (by decide)
    (fun s h => by simp [wNormA] at h) (fun s h => by simp [wNormA] at h)

/-- Claim C9: when the layer-count read fails — the attribute is missing
(`AttributeError`) or the definition's key is `None` (`TypeError`) — the
error propagates out of `all_weights` before any descriptor is produced;
when the attribute holds a wrong-typed (string) value, enumeration also
raises instead of returning a list.  In no failing case is an empty or
truncated descriptor list returned. -/
theorem claim_C9 (a : JsonArchitectureInfo) (config : PretrainedConfig) :
    (∀ e : PyErr, a.num_layers config = Except.error e →
      a.all_weights config = Except.error e)
  ∧ (∀ s : String, a.num_layers config = Except.ok (AttrVal.str s) →
      ∃ e : PyErr, a.all_weights config = Except.error e) := by
  constructor
  · intro e h
    unfold JsonArchitectureInfo.all_weights
    rw [h]
    rfl
  · intro s h
    cases hp : a.pre_weights config with
    | error e =>
      refine ⟨e, ?_⟩
      unfold JsonArchitectureInfo.all_weights
      rw [h]
      show a.pre_weights config >>= _ = Except.error e
      rw [hp]
      rfl
    | ok w => exact absurd hp (pre_weights_never_ok a config w)

/-- Witness for claim C9: a configuration with no layer-count attribute
makes enumeration fail with the attribute error, not return a list. -/
theorem claim_C9_witness :
    archLlama.all_weights cfgNoLayers
      = Except.error (PyErr.attributeError "num_hidden_layers") :=
  (claim_C9 archLlama cfgNoLayers).1 (PyErr.attributeError "num_hidden_layers") rfl

/-- Claim C10: `_load_architecture_info` demands exactly one declared
architecture name: any configuration whose list has length ≠ 1 — the
empty list included — fails with the same `RuntimeError`, never
selecting a default. -/
theorem claim_C10 (archs : List JsonArchitectureInfo) (config : PretrainedConfig)
    (h : config.architectures.length ≠ 1) :
    loadArchitectureInfo archs config
      = Except.error (PyErr.runtimeError "More than one architecture in config?") := by
  rcases hc : config.architectures with _ | ⟨a, _ | ⟨b, rest⟩⟩
  · simp [loadArchitectureInfo, hc]
  · rw [hc] at h
    simp at h
  · simp [loadArchitectureInfo, hc]

/-- Witness for claim C10: the empty architecture list is rejected. -/
theorem claim_C10_witness :
    loadArchitectureInfo [] cfgNoArch
      = Except.error (PyErr.runtimeError "More than one architecture in config?") :=
  claim_C10 [] cfgNoArch (by decide)

/-- Claim C3: when one declared architecture name is served by several
loaded definitions, `_load_architecture_info` returns exactly the
candidate whose `expected_model_type` equals the configuration's
declared `model_type` (first conjunct, under uniqueness of the match),
and raises the unsupported-model-type `RuntimeError` when no candidate
matches (second conjunct). -/
theorem claim_C3 (archs : List JsonArchitectureInfo) (config : PretrainedConfig)
    (arch_name : String) (candidates : List JsonArchitectureInfo)
    (harch : config.architectures = [arch_name])
    (hmix : arch_name ≠ mixtralArchitectureName)
    (hcand : dictLookup (nameToArch archs) arch_name = some candidates)
    (hmulti : 2 ≤ candidates.length) :
    (∀ c ∈ candidates, c.definition.expected_model_type = config.model_type →
      (∀ c' ∈ candidates,
        c'.definition.expected_model_type = config.model_type → c' = c) →
      loadArchitectureInfo archs config = Except.ok (ResolvedArch.json c))
  ∧ ((∀ c ∈ candidates, c.definition.expected_model_type ≠ config.model_type) →
      loadArchitectureInfo archs config =
        Except.error (PyErr.runtimeError
          ("Unsupported model_type " ++ config.model_type
            ++ " for architecture " ++ arch_name))) := by
  rcases candidates with _ | ⟨c1, _ | ⟨c2, cs⟩⟩
  · simp at hmulti
  · simp at hmulti
  · constructor
    · intro c hc hty huniq
      have hfind :
          (c1 :: c2 :: cs).find?
              (fun d => d.definition.expected_model_type == config.model_type)
            = some c := by
        apply find?_eq_some_of_mem_unique _ _ c hc
        · simp [hty]
        · intro c' hc' hp'
          exact huniq c' hc' (by simpa using hp')
      simp [loadArchitectureInfo, harch, hmix, hcand, hfind]
    · intro hnone
      have hfind :
          (c1 :: c2 :: cs).find?
              (fun d => d.definition.expected_model_type == config.model_type)
            = none := by
        apply List.find?_eq_none.mpr
        intro x hx
        simpa using hnone x hx
      simp [loadArchitectureInfo, harch, hmix, hcand, hfind]

/-- Witness for claim C3: two definitions share the name "X" with model
types "a" and "b"; a configuration declaring name "X" and type "a"
resolves to the "a" definition. -/
theorem claim_C3_witness :
    loadArchitectureInfo archsXX cfgXa
      = Except.ok (ResolvedArch.json { definition := defnXa }) :=
  (claim_C3 archsXX cfgXa "X" [{ definition := defnXa }, { definition := defnXb }]
      rfl (by decide) (by decide) (by decide)).1
    { definition := defnXa } (by decide) (by decide) (by decide)

/-- Witness for claim C4: expert count 8, layer index 2 yields
8·3 + 1 = 25 descriptors. -/
theorem claim_C4_witness :
    (MixtralTensorNames.layer_weights { num_local_experts := 8 } 2).length = 25 :=
  (claim_C4 { num_local_experts := 8 } 2).1
